import Mathlib

/-!
Shallow embedding of the fit_pal conversational workflow executor.

Source files embedded (python):
  src/agents/state.py            -- AgentState and the per-field record types
  src/agents/nodes/input_node.py -- input_parser_node (date-defaulting logic)
  src/agents/nodes/food_search_node.py
  src/agents/nodes/selection_node.py
  src/agents/nodes/calculate_log_node.py
  src/agents/nodes/stats_node.py
  src/agents/nodes/response_node.py
  src/agents/nutritionist.py     -- routers and graph wiring
  src/tools/food_lookup.py       -- calculate_food_macros
  src/schemas/input_schema.py, src/schemas/selection_schema.py

Modelling conventions:
  * python dates and datetimes are day / instant numbers (Nat);
  * python floats are rationals (ℚ); `round(x, 2)` is round-half-to-even at
    two decimals, embedded exactly as `pyRound2`;
  * the LLM oracles (intent parsing, candidate selection, reply text) and the
    database collaborators (catalog, log store) are parameters of the node
    functions: a node "invoking" an oracle means its result depends on that
    parameter;
  * a LangGraph node returns a partial update dict; `StateUpdate` mirrors it
    with `none` for an absent key, and doubly-nested options for keys whose
    python value may itself be `None`; `applyUpdate` is the channel merge
    (`add_messages` appends, every other field is replaced when present).
-/

/-- src/agents/state.py `PendingFoodItem` (mirrors `SingleFoodItem`). -/
structure PendingFoodItem where
  food_name : String
  amount : ℚ
  unit : String
  original_text : String
deriving Repr, DecidableEq

/-- src/agents/state.py `SearchResult`. -/
structure SearchResult where
  id : Int
  name : String
deriving Repr, DecidableEq

/-- src/agents/state.py `QueriedLog` (row shape of the daily-log report). -/
structure QueriedLog where
  id : Int
  food_id : Int
  amount_g : ℚ
  calories : ℚ
  protein : ℚ
  carbs : ℚ
  fat : ℚ
  timestamp : Nat
  meal_type : Option String
  original_text : Option String
deriving Repr, DecidableEq

/-- src/agents/state.py `ProcessingResult`: a `PendingFoodItem` plus
status ("LOGGED" or "FAILED") and a user-facing message. -/
structure ProcessingResult where
  food_name : String
  amount : ℚ
  unit : String
  original_text : String
  status : String
  message : String
deriving Repr, DecidableEq

/-- The estimation dict written by selection_node.py
(`{"calories": ..., "protein": ..., "carbs": ..., "fat": ...}`). -/
structure Estimation where
  calories : ℚ
  protein : ℚ
  carbs : ℚ
  fat : ℚ
deriving Repr, DecidableEq

/-- src/models.py `FoodItem` row: nutritional values per 100 g. -/
structure FoodItem where
  id : Int
  name : String
  calories : ℚ
  protein : ℚ
  carbs : ℚ
  fat : ℚ
deriving Repr, DecidableEq

/-- Return dict of src/tools/food_lookup.py `calculate_food_macros`
in the non-error case. -/
structure MacroResult where
  name : String
  amount_g : ℚ
  calories : ℚ
  protein : ℚ
  fat : ℚ
  carbs : ℚ
deriving Repr, DecidableEq

/-- Round a rational to the nearest integer, ties to the even integer:
python's `round` tie-breaking rule. (`Rat.floor` is the executable floor;
away from a tie the nearest integer is `(x + 1/2).floor`.) -/
def roundHalfEven (x : ℚ) : Int :=
  if x - x.floor = 1/2 then (if x.floor % 2 = 0 then x.floor else x.floor + 1)
  else (x + 1/2).floor

/-- python `round(x, 2)`: round half-to-even at two decimal places. -/
def pyRound2 (x : ℚ) : ℚ :=
  ((roundHalfEven (x * 100) : Int) : ℚ) / 100

/-- src/tools/food_lookup.py `calculate_food_macros(food_id, amount_g)`.
`session.get(FoodItem, food_id)` is the first catalog row with that id;
`none` stands for the `{"error": ...}` dict returned when the id is absent.
The python body computes `ratio = amount_g / 100.0` and rounds each scaled
macro with `round(value * ratio, 2)`. -/
def calculate_food_macros (catalog : List FoodItem) (food_id : Int)
    (amount_g : ℚ) : Option MacroResult :=
  match catalog.find? (fun f => f.id = food_id) with
  | none => none
  | some food =>
      some { name := food.name
             amount_g := amount_g
             calories := pyRound2 (food.calories * (amount_g / 100))
             protein := pyRound2 (food.protein * (amount_g / 100))
             fat := pyRound2 (food.fat * (amount_g / 100))
             carbs := pyRound2 (food.carbs * (amount_g / 100)) }

/-- src/agents/state.py `AgentState`. Fields read with `state.get(...)` that
the TypedDict does not declare (`current_estimation`, `consumed_at`) are
carried as options that no declared channel ever fills from outside; in the
running graph they are the python `None` that `dict.get` returns. `messages`
is abstracted to the reply texts. `current_date` is an option because the
initial state has no such key even though the TypedDict marks it non-optional. -/
structure AgentState where
  messages : List String
  pending_food_items : List PendingFoodItem
  daily_log_report : List QueriedLog
  current_date : Option Nat
  start_date : Option Nat
  end_date : Option Nat
  last_action : Option String
  search_results : List SearchResult
  selected_food_id : Option Int
  current_estimation : Option Estimation
  consumed_at : Option Nat
  processing_results : List ProcessingResult
deriving Repr, DecidableEq

/-- A node's partial update dict. `none` = key absent from the returned dict;
for python-optional fields the inner option is the written value, so
`some none` embeds an explicit `"key": None` entry. -/
structure StateUpdate where
  messages : List String := []
  pending_food_items : Option (List PendingFoodItem) := none
  daily_log_report : Option (List QueriedLog) := none
  current_date : Option (Option Nat) := none
  start_date : Option (Option Nat) := none
  end_date : Option (Option Nat) := none
  last_action : Option String := none
  search_results : Option (List SearchResult) := none
  selected_food_id : Option (Option Int) := none
  current_estimation : Option (Option Estimation) := none
  processing_results : Option (List ProcessingResult) := none
deriving Repr

/-- LangGraph channel merge: `messages` uses the `add_messages` reducer
(concatenation); every other channel replaces its value when the update
carries the key. No node writes `consumed_at`. -/
def applyUpdate (s : AgentState) (u : StateUpdate) : AgentState where
  messages := s.messages ++ u.messages
  pending_food_items := u.pending_food_items.getD s.pending_food_items
  daily_log_report := u.daily_log_report.getD s.daily_log_report
  current_date := u.current_date.getD s.current_date
  start_date := u.start_date.getD s.start_date
  end_date := u.end_date.getD s.end_date
  last_action := match u.last_action with
    | some a => some a
    | none => s.last_action
  search_results := u.search_results.getD s.search_results
  selected_food_id := u.selected_food_id.getD s.selected_food_id
  current_estimation := u.current_estimation.getD s.current_estimation
  consumed_at := s.consumed_at
  processing_results := u.processing_results.getD s.processing_results

/-- The empty state a fresh thread starts from (every key absent / empty). -/
def initialState : AgentState where
  messages := []
  pending_food_items := []
  daily_log_report := []
  current_date := none
  start_date := none
  end_date := none
  last_action := none
  search_results := []
  selected_food_id := none
  current_estimation := none
  consumed_at := none
  processing_results := []

/-- src/schemas/input_schema.py `FoodIntakeEvent`: the intent oracle's reply.
`action` carries the `ActionType` string value ("LOG_FOOD",
"QUERY_FOOD_INFO", "QUERY_DAILY_STATS" or "CHITCHAT"). -/
structure FoodIntakeEvent where
  action : String
  items : List PendingFoodItem
  meal_type : Option String := none
  target_date : Option Nat := none
  start_date : Option Nat := none
  end_date : Option Nat := none
deriving Repr, DecidableEq

/-- src/schemas/selection_schema.py `SelectionStatus`. -/
inductive SelectionStatus where
  | SELECTED
  | NO_MATCH
  | AMBIGUOUS
  | ESTIMATED
deriving Repr, DecidableEq

/-- The `.value` string of a `SelectionStatus`. -/
def SelectionStatus.value : SelectionStatus → String
  | .SELECTED => "SELECTED"
  | .NO_MATCH => "NO_MATCH"
  | .AMBIGUOUS => "AMBIGUOUS"
  | .ESTIMATED => "ESTIMATED"

/-- src/schemas/selection_schema.py `FoodSelectionResult`:
the selection oracle's structured reply. -/
structure FoodSelectionResult where
  status : SelectionStatus
  food_id : Option Int := none
  confidence : Option String := none
  estimated_calories : Option ℚ := none
  estimated_protein : Option ℚ := none
  estimated_carbs : Option ℚ := none
  estimated_fat : Option ℚ := none
deriving Repr, DecidableEq

/-- src/agents/nodes/input_node.py `input_parser_node`. `result` is the
intent oracle's structured reply to the latest message and `today` is
`date.today()`. Date branches, in source order:
  * both range bounds supplied: the update writes `start_date`, `end_date`
    and `current_date` (first assigned `end_date`, then overwritten with
    `date.today()` on line 63 — the net value embedded here);
  * only `target_date`: `current_date := target_date`, both bounds `None`;
  * neither: `current_date := date.today()`, both bounds `None`. -/
def input_parser_node (result : FoodIntakeEvent) (today : Nat) : StateUpdate :=
  let base : StateUpdate :=
    { pending_food_items := some result.items
      last_action := some result.action
      processing_results := some [] }
  if result.start_date.isSome ∧ result.end_date.isSome then
    { base with
      start_date := some result.start_date
      end_date := some result.end_date
      current_date := some (some today) }
  else if result.target_date.isSome then
    { base with
      current_date := some result.target_date
      start_date := some none
      end_date := some none }
  else
    { base with
      current_date := some (some today)
      start_date := some none
      end_date := some none }

/-- src/agents/nodes/food_search_node.py `food_search_node`.
`search_food` is the catalog-search collaborator. -/
def food_search_node (state : AgentState)
    (search_food : String → List SearchResult) : StateUpdate :=
  match state.pending_food_items with
  | [] => { search_results := some [] }
  | first_item :: _ => { search_results := some (search_food first_item.food_name) }

/-- Placeholder for selection_node.py's `current_item = {}` when
`pending_food_items` is empty (python there carries an empty dict whose
keys are all absent; every claim below constrains a non-empty queue). -/
def emptyItem : PendingFoodItem :=
  { food_name := "", amount := 0, unit := "", original_text := "" }

/-- Failure entry `{**current_item, "status": "FAILED", "message": msg}`. -/
def failEntry (item : PendingFoodItem) (msg : String) : ProcessingResult :=
  { food_name := item.food_name
    amount := item.amount
    unit := item.unit
    original_text := item.original_text
    status := "FAILED"
    message := msg }

/-- src/agents/nodes/selection_node.py `agent_selection_node`.
`result` is the selection oracle's reply; the returned boolean records
whether control reached `structured_llm.invoke` (it does not when exactly
one search result triggers the auto-select early return).
Branches, in source order: single result auto-select; ESTIMATED;
SELECTED-with-no-id downgraded to NO_MATCH; AMBIGUOUS downgraded to
NO_MATCH; NO_MATCH; final fallthrough (a consistent SELECTED). -/
def agent_selection_node (state : AgentState)
    (result : FoodSelectionResult) : StateUpdate × Bool :=
  let current_item := state.pending_food_items.headD emptyItem
  match state.search_results with
  | [c] =>
      ({ selected_food_id := some (some c.id), last_action := some "SELECTED" },
       false)
  | _ =>
      let processing_results := state.processing_results
      if result.status = SelectionStatus.ESTIMATED then
        ({ selected_food_id := some none
           last_action := some "ESTIMATED"
           current_estimation := some (some
             { calories := result.estimated_calories.getD 0
               protein := result.estimated_protein.getD 0
               carbs := result.estimated_carbs.getD 0
               fat := result.estimated_fat.getD 0 }) }, true)
      else if result.status = SelectionStatus.SELECTED ∧ result.food_id = none then
        ({ selected_food_id := some none
           last_action := some "NO_MATCH"
           processing_results := some (processing_results ++
             [failEntry current_item
               ("Could not select match for " ++ current_item.food_name)]) }, true)
      else if result.status = SelectionStatus.AMBIGUOUS then
        ({ selected_food_id := some none
           last_action := some "NO_MATCH"
           processing_results := some (processing_results ++
             [failEntry current_item
               ("Ambiguous match for " ++ current_item.food_name)]) }, true)
      else if result.status = SelectionStatus.NO_MATCH then
        ({ selected_food_id := some none
           last_action := some "NO_MATCH"
           processing_results := some (processing_results ++
             [failEntry current_item
               ("No appropriate match found for " ++ current_item.food_name)]) },
         true)
      else
        ({ selected_food_id := some result.food_id
           last_action := some result.status.value }, true)

/-- The row handed to `daily_log_service.create_log_entry` by
calculate_log_node.py. -/
structure LogEntry where
  food_id : Int
  amount_g : ℚ
  calories : ℚ
  protein : ℚ
  carbs : ℚ
  fat : ℚ
  timestamp : Nat
  original_text : String
deriving Repr, DecidableEq

/-- python truthiness of `selected_food_id` (`if selected_food_id:`
is false both for `None` and for the integer 0). -/
def truthyId : Option Int → Bool
  | none => false
  | some n => n ≠ 0

/-- src/agents/nodes/calculate_log_node.py `calculate_log_node`.
Collaborators: `catalog` backs `calculate_food_macros`; `now` is
`datetime.now(timezone.utc)`; `logs_by_date` is
`daily_log_service.get_logs_by_date` as observed after the insert.
The second component is the row passed to `create_log_entry`
(`none` when nothing was persisted). The python locals trick
(`updated_report if 'updated_report' in locals() else ...`) becomes the
success/failure split: only the success branch defines the new report and
results. Timezone normalization of `consumed_at` is the identity here
(instants are plain numbers); `.date()` is also the identity. -/
def calculate_log_node (state : AgentState) (catalog : List FoodItem)
    (now : Nat) (logs_by_date : Nat → List QueriedLog) :
    StateUpdate × Option LogEntry :=
  match state.pending_food_items with
  | [] => ({}, none)
  | current_item :: remaining_items =>
      let fallthrough : StateUpdate :=
        { pending_food_items := some remaining_items
          daily_log_report := some state.daily_log_report
          last_action := some "LOGGED"
          selected_food_id := some none
          processing_results := some state.processing_results }
      match state.selected_food_id with
      | none => (fallthrough, none)
      | some fid =>
          if fid = 0 then (fallthrough, none)
          else
            let amount := current_item.amount
            match calculate_food_macros catalog fid amount with
            | none => (fallthrough, none)
            | some macros =>
                let consumed_at := state.consumed_at
                let timestamp := consumed_at.getD now
                let entry : LogEntry :=
                  { food_id := fid
                    amount_g := amount
                    calories := macros.calories
                    protein := macros.protein
                    carbs := macros.carbs
                    fat := macros.fat
                    timestamp := timestamp
                    original_text := current_item.original_text }
                let updated_report : List QueriedLog :=
                  match consumed_at with
                  | some t => (logs_by_date t).map (fun log =>
                      { id := log.id
                        food_id := log.food_id
                        amount_g := log.amount_g
                        calories := log.calories
                        protein := log.protein
                        carbs := log.carbs
                        fat := log.fat
                        timestamp := log.timestamp
                        meal_type := log.meal_type
                        original_text := log.original_text })
                  | none => []
                let result_item : ProcessingResult :=
                  { food_name := current_item.food_name
                    amount := current_item.amount
                    unit := current_item.unit
                    original_text := current_item.original_text
                    status := "LOGGED"
                    message := "Logged " ++ current_item.food_name ++ " (" ++
                      toString macros.calories ++ "kcal)" }
                let updated_results :=
                  state.processing_results ++ [result_item]
                ({ pending_food_items := some remaining_items
                   daily_log_report := some updated_report
                   last_action := some "LOGGED"
                   selected_food_id := some none
                   processing_results := some updated_results }, some entry)

/-- src/agents/nodes/stats_node.py `stats_lookup_node`. Collaborators:
`get_logs_by_date_range` and `get_logs_by_date` (the latter receives the
possibly-absent `current_date`, as `state.get` can return `None`). -/
def stats_lookup_node (state : AgentState)
    (get_logs_by_date_range : Nat → Nat → List QueriedLog)
    (get_logs_by_date : Option Nat → List QueriedLog) : StateUpdate :=
  let logs :=
    match state.start_date, state.end_date with
    | some a, some b => get_logs_by_date_range a b
    | _, _ => get_logs_by_date state.current_date
  { daily_log_report := some (logs.map (fun log =>
      { id := log.id
        food_id := log.food_id
        amount_g := log.amount_g
        calories := log.calories
        protein := log.protein
        carbs := log.carbs
        fat := log.fat
        timestamp := log.timestamp
        meal_type := log.meal_type
        original_text := log.original_text })) }

/-- src/agents/nodes/response_node.py `response_node`: the text oracle's
reply is appended to `messages` (context building is not state-relevant). -/
def response_node (_state : AgentState) (reply : String) : StateUpdate :=
  { messages := [reply] }

/-- src/agents/nutritionist.py `route_parser` (conditional edge after
`input_parser`). -/
def route_parser_step (state : AgentState) : String :=
  match state.last_action with
  | some "LOG_FOOD" => "food_search"
  | some "QUERY_FOOD_INFO" => "food_search"
  | some "QUERY_DAILY_STATS" => "stats_lookup"
  | _ => "response"

/-- src/agents/nutritionist.py `route_after_selection`. -/
def route_after_selection (state : AgentState) : String :=
  if state.last_action = some "SELECTED" then "calculate_log" else "response"

/-- src/agents/nutritionist.py `route_after_calculate`. -/
def route_after_calculate (state : AgentState) : String :=
  if state.pending_food_items ≠ [] then "food_search" else "response"

/-- The named nodes of the compiled graph (src/agents/nutritionist.py
`workflow.add_node` calls). -/
inductive GraphNode where
  | parse_input
  | food_search
  | agent_selection
  | calculate_log
  | stats_lookup
  | response
deriving Repr, DecidableEq

/-- Map a router's returned step name to a graph node (the conditional-edge
dictionaries of nutritionist.py). Routers are total over these names. -/
def nodeOfName : String → Option GraphNode
  | "food_search" => some .food_search
  | "stats_lookup" => some .stats_lookup
  | "calculate_log" => some .calculate_log
  | "response" => some .response
  | _ => none

/-- One turn's external collaborators, fixed for the turn: oracle replies,
the wall clock, the catalog and the log store. -/
structure TurnOracles where
  intent : FoodIntakeEvent
  today : Nat
  search_food : String → List SearchResult
  selection : FoodSelectionResult
  catalog : List FoodItem
  now : Nat
  logs_by_date : Nat → List QueriedLog
  logs_by_date_range : Nat → Nat → List QueriedLog
  logs_by_opt_date : Option Nat → List QueriedLog
  reply : String

/-- One scheduler step of the compiled graph: invoke the node, merge its
update, pick the next node via the wired edge or conditional router
(`none` = END). Edges as wired in nutritionist.py:
entry → input_parser; input_parser --route_parser-->; food_search →
agent_selection; agent_selection --route_after_selection-->;
calculate_log --route_after_calculate-->; stats_lookup → response;
response → END. -/
def stepGraph (n : GraphNode) (s : AgentState) (o : TurnOracles) :
    AgentState × Option GraphNode :=
  match n with
  | .parse_input =>
      let s' := applyUpdate s (input_parser_node o.intent o.today)
      (s', nodeOfName (route_parser_step s'))
  | .food_search =>
      let s' := applyUpdate s (food_search_node s o.search_food)
      (s', some .agent_selection)
  | .agent_selection =>
      let s' := applyUpdate s (agent_selection_node s o.selection).1
      (s', nodeOfName (route_after_selection s'))
  | .calculate_log =>
      let s' := applyUpdate s
        (calculate_log_node s o.catalog o.now o.logs_by_date).1
      (s', nodeOfName (route_after_calculate s'))
  | .stats_lookup =>
      let s' := applyUpdate s
        (stats_lookup_node s o.logs_by_date_range o.logs_by_opt_date)
      (s', some .response)
  | .response =>
      let s' := applyUpdate s (response_node s o.reply)
      (s', none)

/-- Run the scheduler from a node for at most `fuel` steps (the graph
reaches END well before any reasonable fuel on every wired path). -/
def runGraph : Nat → GraphNode → AgentState → TurnOracles → AgentState
  | 0, _, s, _ => s
  | fuel + 1, n, s, o =>
      match stepGraph n s o with
      | (s', none) => s'
      | (s', some n') => runGraph fuel n' s' o

/-- States reachable from the fresh-thread state by any sequence of node
updates, with arbitrary collaborator replies at each step. -/
inductive Reachable : AgentState → Prop
  | init : Reachable initialState
  | parse {s : AgentState} (h : Reachable s) (result : FoodIntakeEvent)
      (today : Nat) :
      Reachable (applyUpdate s (input_parser_node result today))
  | search {s : AgentState} (h : Reachable s)
      (search_food : String → List SearchResult) :
      Reachable (applyUpdate s (food_search_node s search_food))
  | select {s : AgentState} (h : Reachable s) (result : FoodSelectionResult) :
      Reachable (applyUpdate s (agent_selection_node s result).1)
  | calc_log {s : AgentState} (h : Reachable s) (catalog : List FoodItem)
      (now : Nat) (logs_by_date : Nat → List QueriedLog) :
      Reachable (applyUpdate s
        (calculate_log_node s catalog now logs_by_date).1)
  | stats {s : AgentState} (h : Reachable s)
      (rq : Nat → Nat → List QueriedLog)
      (dq : Option Nat → List QueriedLog) :
      Reachable (applyUpdate s (stats_lookup_node s rq dq))
  | respond {s : AgentState} (h : Reachable s) (reply : String) :
      Reachable (applyUpdate s (response_node s reply))

/-- "Single date mode is populated": the single target date field holds a
value. -/
def single_date_mode (s : AgentState) : Bool :=
  s.current_date.isSome

/-- "Range mode is populated": both range bounds hold values. -/
def range_mode (s : AgentState) : Bool :=
  s.start_date.isSome && s.end_date.isSome

/-- The executable `Rat.floor` agrees with the floor of the order structure. -/
theorem ratFloor_eq_floor (q : ℚ) : q.floor = ⌊q⌋ := by
  rw [Rat.floor_def', Rat.floor_def]

/-- C1: the spec's canonical behavior is that when the intent oracle supplies
neither a target date nor range bounds, all three date fields are left unset;
the code instead defaults `current_date` to `date.today()`. This theorem
evaluates `input_parser_node` at such a failing input (`today = 7`): the
range bounds are indeed cleared, but the single date is written as today. -/
theorem C1_code_defaults_single_date_to_today :
    (input_parser_node { action := "CHITCHAT", items := [] } 7).current_date
        = some (some 7) ∧
    (input_parser_node { action := "CHITCHAT", items := [] } 7).start_date
        = some none ∧
    (input_parser_node { action := "CHITCHAT", items := [] } 7).end_date
        = some none := by
  refine ⟨rfl, rfl, rfl⟩

/-- C5: with exactly one search candidate the selection step auto-selects it
(last_action SELECTED, selected_food_id the candidate's id) and never reaches
the oracle invocation, for every possible oracle reply. -/
theorem C5_single_candidate_auto_select (s : AgentState)
    (result : FoodSelectionResult) (c : SearchResult)
    (h : s.search_results = [c]) :
    agent_selection_node s result =
      ({ selected_food_id := some (some c.id), last_action := some "SELECTED" },
        false) := by
  unfold agent_selection_node
  rw [h]

/-- C5 witness: a state holding exactly the candidate id 165. -/
theorem C5_single_candidate_auto_select_witness :
    agent_selection_node
        { initialState with search_results := [{ id := 165, name := "Chicken Breast" }] }
        { status := SelectionStatus.NO_MATCH } =
      ({ selected_food_id := some (some 165), last_action := some "SELECTED" },
        false) :=
  C5_single_candidate_auto_select _ _ _ rfl

/-- C4: when the compute+persist step runs with no selected catalog id and no
current estimation, it persists nothing, still removes the head of the
pending queue, appends no success entry, and leaves the report rows
unchanged. -/
theorem C4_no_selection_frame (s : AgentState) (item : PendingFoodItem)
    (rest : List PendingFoodItem) (catalog : List FoodItem) (now : Nat)
    (logs_by_date : Nat → List QueriedLog)
    (hp : s.pending_food_items = item :: rest)
    (hsel : s.selected_food_id = none)
    (_hest : s.current_estimation = none) :
    (calculate_log_node s catalog now logs_by_date).2 = none ∧
    (calculate_log_node s catalog now logs_by_date).1.pending_food_items
        = some rest ∧
    (applyUpdate s (calculate_log_node s catalog now logs_by_date).1).pending_food_items = rest ∧
    (applyUpdate s (calculate_log_node s catalog now logs_by_date).1).processing_results = s.processing_results ∧
    (applyUpdate s (calculate_log_node s catalog now logs_by_date).1).daily_log_report = s.daily_log_report := by
  unfold calculate_log_node
  rw [hp, hsel]
  simp [applyUpdate]

/-- C4 witness: one pending item, nothing selected, nothing estimated. -/
theorem C4_no_selection_frame_witness :
    (calculate_log_node
        { initialState with pending_food_items :=
            [{ food_name := "mystery stew", amount := 250, unit := "g",
               original_text := "a bowl of mystery stew" }] }
        [] 0 (fun _ => [])).2 = none ∧
    (calculate_log_node
        { initialState with pending_food_items :=
            [{ food_name := "mystery stew", amount := 250, unit := "g",
               original_text := "a bowl of mystery stew" }] }
        [] 0 (fun _ => [])).1.pending_food_items = some [] ∧
    (applyUpdate
        { initialState with pending_food_items :=
            [{ food_name := "mystery stew", amount := 250, unit := "g",
               original_text := "a bowl of mystery stew" }] }
        (calculate_log_node
          { initialState with pending_food_items :=
              [{ food_name := "mystery stew", amount := 250, unit := "g",
                 original_text := "a bowl of mystery stew" }] }
          [] 0 (fun _ => [])).1).pending_food_items = [] ∧
    (applyUpdate
        { initialState with pending_food_items :=
            [{ food_name := "mystery stew", amount := 250, unit := "g",
               original_text := "a bowl of mystery stew" }] }
        (calculate_log_node
          { initialState with pending_food_items :=
              [{ food_name := "mystery stew", amount := 250, unit := "g",
                 original_text := "a bowl of mystery stew" }] }
          [] 0 (fun _ => [])).1).processing_results =
      ({ initialState with pending_food_items :=
            [{ food_name := "mystery stew", amount := 250, unit := "g",
               original_text := "a bowl of mystery stew" }] } : AgentState).processing_results ∧
    (applyUpdate
        { initialState with pending_food_items :=
            [{ food_name := "mystery stew", amount := 250, unit := "g",
               original_text := "a bowl of mystery stew" }] }
        (calculate_log_node
          { initialState with pending_food_items :=
              [{ food_name := "mystery stew", amount := 250, unit := "g",
                 original_text := "a bowl of mystery stew" }] }
          [] 0 (fun _ => [])).1).daily_log_report =
      ({ initialState with pending_food_items :=
            [{ food_name := "mystery stew", amount := 250, unit := "g",
               original_text := "a bowl of mystery stew" }] } : AgentState).daily_log_report :=
  C4_no_selection_frame _ _ _ _ _ _ rfl rfl rfl

/-- C9: whenever `pending_food_items` is non-empty, the compute+persist
step's update sets `last_action` to "LOGGED" — in the success path, when no
catalog id was selected (or a falsy id 0 was), and when the macro lookup
returned its not-found error alike. -/
theorem C9_last_action_always_logged (s : AgentState) (item : PendingFoodItem)
    (rest : List PendingFoodItem) (catalog : List FoodItem) (now : Nat)
    (logs_by_date : Nat → List QueriedLog)
    (hp : s.pending_food_items = item :: rest) :
    (calculate_log_node s catalog now logs_by_date).1.last_action
      = some "LOGGED" := by
  unfold calculate_log_node
  rw [hp]
  cases hsel : s.selected_food_id with
  | none => rfl
  | some fid =>
      by_cases hz : fid = 0
      · simp [hz]
      · simp only [hz, if_false]
        cases hm : calculate_food_macros catalog fid item.amount <;> simp

/-- C9 witness: one pending item and no selection — nothing is persisted,
yet the update's last_action is "LOGGED". -/
theorem C9_last_action_always_logged_witness :
    (calculate_log_node
        { initialState with pending_food_items :=
            [{ food_name := "tea", amount := 200, unit := "g",
               original_text := "a cup of tea" }] }
        [] 0 (fun _ => [])).1.last_action = some "LOGGED" :=
  C9_last_action_always_logged _ _ [] _ _ _ rfl

/-- C10: on a successful compute+persist run (a truthy catalog id is
selected and the macro lookup succeeds) in a state with no `consumed_at`
timestamp, a row is persisted but the update overwrites `daily_log_report`
with the empty list (the report refresh only happens under a `consumed_at`
value, and `updated_report` was initialized to `[]`). -/
theorem C10_success_overwrites_report_with_empty (s : AgentState)
    (item : PendingFoodItem) (rest : List PendingFoodItem)
    (catalog : List FoodItem) (now : Nat)
    (logs_by_date : Nat → List QueriedLog) (fid : Int) (m : MacroResult)
    (hp : s.pending_food_items = item :: rest)
    (hsel : s.selected_food_id = some fid) (hz : fid ≠ 0)
    (hm : calculate_food_macros catalog fid item.amount = some m)
    (hc : s.consumed_at = none) :
    (calculate_log_node s catalog now logs_by_date).2 ≠ none ∧
    (calculate_log_node s catalog now logs_by_date).1.daily_log_report
        = some [] ∧
    (applyUpdate s (calculate_log_node s catalog now logs_by_date).1).daily_log_report = [] := by
  unfold calculate_log_node
  rw [hp, hsel]
  simp only [hz, if_false]
  rw [hm, hc]
  simp [applyUpdate]

/-- C10 witness: catalog has the selected food, lookup succeeds, no
consumed_at — the report rows are wiped to the empty list. -/
theorem C10_success_overwrites_report_with_empty_witness :
    (calculate_log_node
        { initialState with
            pending_food_items :=
              [{ food_name := "chicken breast", amount := 100, unit := "g",
                 original_text := "100g chicken breast" }],
            selected_food_id := some 1 }
        [{ id := 1, name := "Chicken Breast", calories := 165, protein := 31,
           carbs := 0, fat := 18/5 }] 0 (fun _ => [])).2 ≠ none ∧
    (calculate_log_node
        { initialState with
            pending_food_items :=
              [{ food_name := "chicken breast", amount := 100, unit := "g",
                 original_text := "100g chicken breast" }],
            selected_food_id := some 1 }
        [{ id := 1, name := "Chicken Breast", calories := 165, protein := 31,
           carbs := 0, fat := 18/5 }] 0 (fun _ => [])).1.daily_log_report
      = some [] ∧
    (applyUpdate
        { initialState with
            pending_food_items :=
              [{ food_name := "chicken breast", amount := 100, unit := "g",
                 original_text := "100g chicken breast" }],
            selected_food_id := some 1 }
        (calculate_log_node
          { initialState with
              pending_food_items :=
                [{ food_name := "chicken breast", amount := 100, unit := "g",
                   original_text := "100g chicken breast" }],
              selected_food_id := some 1 }
          [{ id := 1, name := "Chicken Breast", calories := 165, protein := 31,
             carbs := 0, fat := 18/5 }] 0 (fun _ => [])).1).daily_log_report
      = [] :=
  C10_success_overwrites_report_with_empty _ _ [] _ 0 _ 1
    { name := "Chicken Breast", amount_g := 100, calories := 165,
      protein := 31, fat := 18/5, carbs := 0 }
    rfl rfl (by decide)
    (by norm_num [calculate_food_macros, List.find?, pyRound2, roundHalfEven,
          ratFloor_eq_floor]) rfl

/-- C6: an oracle reply carrying status SELECTED but no food id (only
possible when the oracle was consulted, i.e. the result count is not one)
is downgraded: the update clears `selected_food_id`, sets `last_action` to
NO_MATCH, appends exactly one FAILED entry for the head item, and the
router then continues the turn to the summary step instead of aborting. -/
theorem C6_selected_without_id_downgraded (s : AgentState)
    (result : FoodSelectionResult) (item : PendingFoodItem)
    (rest : List PendingFoodItem)
    (hp : s.pending_food_items = item :: rest)
    (hn : s.search_results.length ≠ 1)
    (hst : result.status = SelectionStatus.SELECTED)
    (hid : result.food_id = none) :
    (agent_selection_node s result).2 = true ∧
    (agent_selection_node s result).1.selected_food_id = some none ∧
    (agent_selection_node s result).1.last_action = some "NO_MATCH" ∧
    (agent_selection_node s result).1.processing_results =
      some (s.processing_results ++
        [failEntry item ("Could not select match for " ++ item.food_name)]) ∧
    route_after_selection
        (applyUpdate s (agent_selection_node s result).1) = "response" := by
  have hcur : s.pending_food_items.headD emptyItem = item := by rw [hp]; rfl
  unfold agent_selection_node
  rw [hcur]
  cases hsr : s.search_results with
  | nil => simp [hst, hid, route_after_selection, applyUpdate]
  | cons a tail =>
      cases tail with
      | nil => exact absurd (by rw [hsr]; rfl) hn
      | cons b tail2 => simp [hst, hid, route_after_selection, applyUpdate]

/-- C6 witness: two candidates, oracle answers SELECTED with a null id. -/
theorem C6_selected_without_id_downgraded_witness :
    (agent_selection_node
        { initialState with
            pending_food_items :=
              [{ food_name := "toast", amount := 40, unit := "g",
                 original_text := "a slice of toast" }],
            search_results := [{ id := 7, name := "White Toast" },
                               { id := 8, name := "Rye Toast" }] }
        { status := SelectionStatus.SELECTED, food_id := none }).2 = true ∧
    (agent_selection_node
        { initialState with
            pending_food_items :=
              [{ food_name := "toast", amount := 40, unit := "g",
                 original_text := "a slice of toast" }],
            search_results := [{ id := 7, name := "White Toast" },
                               { id := 8, name := "Rye Toast" }] }
        { status := SelectionStatus.SELECTED, food_id := none }).1.selected_food_id
      = some none ∧
    (agent_selection_node
        { initialState with
            pending_food_items :=
              [{ food_name := "toast", amount := 40, unit := "g",
                 original_text := "a slice of toast" }],
            search_results := [{ id := 7, name := "White Toast" },
                               { id := 8, name := "Rye Toast" }] }
        { status := SelectionStatus.SELECTED, food_id := none }).1.last_action
      = some "NO_MATCH" ∧
    (agent_selection_node
        { initialState with
            pending_food_items :=
              [{ food_name := "toast", amount := 40, unit := "g",
                 original_text := "a slice of toast" }],
            search_results := [{ id := 7, name := "White Toast" },
                               { id := 8, name := "Rye Toast" }] }
        { status := SelectionStatus.SELECTED, food_id := none }).1.processing_results
      = some (({ initialState with
            pending_food_items :=
              [{ food_name := "toast", amount := 40, unit := "g",
                 original_text := "a slice of toast" }],
            search_results := [{ id := 7, name := "White Toast" },
                               { id := 8, name := "Rye Toast" }] } : AgentState).processing_results ++
          [failEntry
            { food_name := "toast", amount := 40, unit := "g",
              original_text := "a slice of toast" }
            ("Could not select match for " ++
              ({ food_name := "toast", amount := 40, unit := "g",
                 original_text := "a slice of toast" } : PendingFoodItem).food_name)]) ∧
    route_after_selection
        (applyUpdate
          { initialState with
              pending_food_items :=
                [{ food_name := "toast", amount := 40, unit := "g",
                   original_text := "a slice of toast" }],
              search_results := [{ id := 7, name := "White Toast" },
                                 { id := 8, name := "Rye Toast" }] }
          (agent_selection_node
            { initialState with
                pending_food_items :=
                  [{ food_name := "toast", amount := 40, unit := "g",
                     original_text := "a slice of toast" }],
                search_results := [{ id := 7, name := "White Toast" },
                                   { id := 8, name := "Rye Toast" }] }
            { status := SelectionStatus.SELECTED, food_id := none }).1) = "response" :=
  C6_selected_without_id_downgraded _ _ _ [] rfl (by decide) rfl rfl

/-- C8: a parsed stats-query with both range bounds set routes straight to
the range lookup (never to search); the lookup queries by the explicit
range — the range takes precedence over the single date — overwrites the
report rows with the query's result, and leaves `processing_results`
untouched. -/
theorem C8_stats_query_range_precedence (s : AgentState) (a b : Nat)
    (rq : Nat → Nat → List QueriedLog) (dq : Option Nat → List QueriedLog)
    (ha : s.last_action = some "QUERY_DAILY_STATS")
    (hs : s.start_date = some a) (he : s.end_date = some b) :
    route_parser_step s = "stats_lookup" ∧
    route_parser_step s ≠ "food_search" ∧
    (stats_lookup_node s rq dq).daily_log_report = some (rq a b) ∧
    (applyUpdate s (stats_lookup_node s rq dq)).daily_log_report = rq a b ∧
    (applyUpdate s (stats_lookup_node s rq dq)).processing_results
      = s.processing_results := by
  have hroute : route_parser_step s = "stats_lookup" := by
    unfold route_parser_step
    rw [ha]
    rfl
  have hmapid :
      (fun (log : QueriedLog) =>
        ({ id := log.id, food_id := log.food_id, amount_g := log.amount_g,
           calories := log.calories, protein := log.protein,
           carbs := log.carbs, fat := log.fat, timestamp := log.timestamp,
           meal_type := log.meal_type,
           original_text := log.original_text } : QueriedLog))
        = fun log => log := rfl
  have hnode : (stats_lookup_node s rq dq).daily_log_report = some (rq a b) := by
    unfold stats_lookup_node
    rw [hs, he]
    simp only [hmapid, List.map_id']
  refine ⟨hroute, by rw [hroute]; decide, hnode, ?_, rfl⟩
  show (stats_lookup_node s rq dq).daily_log_report.getD s.daily_log_report
      = rq a b
  rw [hnode]
  rfl

/-- C8 witness: a concrete stats-query state with range 3..5. -/
theorem C8_stats_query_range_precedence_witness :
    route_parser_step
        { initialState with
            last_action := some "QUERY_DAILY_STATS",
            start_date := some 3, end_date := some 5 } = "stats_lookup" ∧
    route_parser_step
        { initialState with
            last_action := some "QUERY_DAILY_STATS",
            start_date := some 3, end_date := some 5 } ≠ "food_search" ∧
    (stats_lookup_node
        { initialState with
            last_action := some "QUERY_DAILY_STATS",
            start_date := some 3, end_date := some 5 }
        (fun _ _ => []) (fun _ => [])).daily_log_report = some ((fun (_ _ : Nat) => ([] : List QueriedLog)) 3 5) ∧
    (applyUpdate
        { initialState with
            last_action := some "QUERY_DAILY_STATS",
            start_date := some 3, end_date := some 5 }
        (stats_lookup_node
          { initialState with
              last_action := some "QUERY_DAILY_STATS",
              start_date := some 3, end_date := some 5 }
          (fun _ _ => []) (fun _ => []))).daily_log_report
      = (fun (_ _ : Nat) => ([] : List QueriedLog)) 3 5 ∧
    (applyUpdate
        { initialState with
            last_action := some "QUERY_DAILY_STATS",
            start_date := some 3, end_date := some 5 }
        (stats_lookup_node
          { initialState with
              last_action := some "QUERY_DAILY_STATS",
              start_date := some 3, end_date := some 5 }
          (fun _ _ => []) (fun _ => []))).processing_results
      = ({ initialState with
            last_action := some "QUERY_DAILY_STATS",
            start_date := some 3, end_date := some 5 } : AgentState).processing_results :=
  C8_stats_query_range_precedence _ 3 5 _ _ rfl rfl rfl

/-- The selection step never writes `pending_food_items` in any branch. -/
theorem agent_selection_node_pending_none (s : AgentState)
    (result : FoodSelectionResult) :
    (agent_selection_node s result).1.pending_food_items = none := by
  unfold agent_selection_node
  split
  · rfl
  · split
    · rfl
    · split
      · rfl
      · split
        · rfl
        · split <;> rfl

/-- The head item of the C2 turn below. -/
def c2Item : PendingFoodItem :=
  { food_name := "dragonfruit salad", amount := 150, unit := "g",
    original_text := "150g dragonfruit salad" }

/-- Collaborators of the C2 turn: a log intent with one item, a catalog
search returning no candidates, and a selection oracle answering NO_MATCH
with no estimation. -/
def c2Oracles : TurnOracles where
  intent := { action := "LOG_FOOD", items := [c2Item] }
  today := 10
  search_food := fun _ => []
  selection := { status := SelectionStatus.NO_MATCH }
  catalog := []
  now := 0
  logs_by_date := fun _ => []
  logs_by_date_range := fun _ _ => []
  logs_by_opt_date := fun _ => []
  reply := "Sorry, I could not log that."

/-- C2 counterexample: in the concrete turn where the selection step yields
NO_MATCH for the head item, the turn reaches the terminal summary step with
the head item STILL in `pending_food_items` (a FAILED outcome was recorded,
but the compute step never ran and the item was never removed) — refuting
the claim that the head item is removed in the compute step before the turn
ends. -/
theorem C2_counterexample :
    (runGraph 10 GraphNode.parse_input initialState c2Oracles).last_action
        = some "NO_MATCH" ∧
    (runGraph 10 GraphNode.parse_input initialState c2Oracles).pending_food_items
        = [c2Item] ∧
    (runGraph 10 GraphNode.parse_input initialState c2Oracles).processing_results
        = [failEntry c2Item
            ("No appropriate match found for " ++ c2Item.food_name)] := by
  refine ⟨rfl, rfl, rfl⟩

/-- C2 amended: when the selection step yields NO_MATCH the router sends the
turn directly to the terminal summary step, bypassing the compute step; the
head item is NOT removed from `pending_food_items` — the turn nevertheless
terminates because the NO_MATCH branch exits the per-item loop entirely,
and the summary step leaves the pending queue unchanged. -/
theorem C2_no_match_exits_loop_without_removal (s : AgentState)
    (result : FoodSelectionResult) (item : PendingFoodItem)
    (rest : List PendingFoodItem) (reply : String)
    (hp : s.pending_food_items = item :: rest)
    (hna : (agent_selection_node s result).1.last_action = some "NO_MATCH") :
    route_after_selection (applyUpdate s (agent_selection_node s result).1)
        = "response" ∧
    (applyUpdate s (agent_selection_node s result).1).pending_food_items
        = item :: rest ∧
    (applyUpdate
        (applyUpdate s (agent_selection_node s result).1)
        (response_node (applyUpdate s (agent_selection_node s result).1)
          reply)).pending_food_items
        = item :: rest := by
  have hpend :
      (applyUpdate s (agent_selection_node s result).1).pending_food_items
        = item :: rest := by
    show ((agent_selection_node s result).1.pending_food_items).getD
        s.pending_food_items = item :: rest
    rw [agent_selection_node_pending_none, hp]
    rfl
  refine ⟨?_, hpend, ?_⟩
  · unfold route_after_selection
    show (if (match (agent_selection_node s result).1.last_action with
        | some a => some a
        | none => s.last_action) = some "SELECTED"
      then "calculate_log" else "response") = "response"
    rw [hna]
    rfl
  · show (Option.getD none _) = item :: rest
    rw [Option.getD]
    exact hpend

/-- C2 witness for the amended theorem: one pending item, no candidates,
oracle answers NO_MATCH. -/
theorem C2_no_match_exits_loop_without_removal_witness :
    route_after_selection
        (applyUpdate { initialState with pending_food_items := [c2Item] }
          (agent_selection_node
            { initialState with pending_food_items := [c2Item] }
            { status := SelectionStatus.NO_MATCH }).1) = "response" ∧
    (applyUpdate { initialState with pending_food_items := [c2Item] }
        (agent_selection_node
          { initialState with pending_food_items := [c2Item] }
          { status := SelectionStatus.NO_MATCH }).1).pending_food_items
      = [c2Item] ∧
    (applyUpdate
        (applyUpdate { initialState with pending_food_items := [c2Item] }
          (agent_selection_node
            { initialState with pending_food_items := [c2Item] }
            { status := SelectionStatus.NO_MATCH }).1)
        (response_node
          (applyUpdate { initialState with pending_food_items := [c2Item] }
            (agent_selection_node
              { initialState with pending_food_items := [c2Item] }
              { status := SelectionStatus.NO_MATCH }).1)
          "Sorry about that.")).pending_food_items = [c2Item] :=
  C2_no_match_exits_loop_without_removal _ _ c2Item [] "Sorry about that."
    rfl rfl

/-- Projection of the merge on `start_date`. -/
theorem applyUpdate_start_date (s : AgentState) (u : StateUpdate) :
    (applyUpdate s u).start_date = u.start_date.getD s.start_date := rfl

/-- Projection of the merge on `end_date`. -/
theorem applyUpdate_end_date (s : AgentState) (u : StateUpdate) :
    (applyUpdate s u).end_date = u.end_date.getD s.end_date := rfl

/-- The search step writes neither range bound. -/
theorem food_search_node_dates (s : AgentState)
    (f : String → List SearchResult) :
    (food_search_node s f).start_date = none ∧
    (food_search_node s f).end_date = none := by
  unfold food_search_node
  split <;> exact ⟨rfl, rfl⟩

/-- The selection step writes neither range bound. -/
theorem agent_selection_node_dates (s : AgentState)
    (r : FoodSelectionResult) :
    (agent_selection_node s r).1.start_date = none ∧
    (agent_selection_node s r).1.end_date = none := by
  unfold agent_selection_node
  split
  · exact ⟨rfl, rfl⟩
  · split
    · exact ⟨rfl, rfl⟩
    · split
      · exact ⟨rfl, rfl⟩
      · split
        · exact ⟨rfl, rfl⟩
        · split <;> exact ⟨rfl, rfl⟩

/-- The compute+persist step writes neither range bound. -/
theorem calculate_log_node_dates (s : AgentState) (catalog : List FoodItem)
    (now : Nat) (logs_by_date : Nat → List QueriedLog) :
    (calculate_log_node s catalog now logs_by_date).1.start_date = none ∧
    (calculate_log_node s catalog now logs_by_date).1.end_date = none := by
  unfold calculate_log_node
  split
  · exact ⟨rfl, rfl⟩
  · split
    · exact ⟨rfl, rfl⟩
    · split
      · exact ⟨rfl, rfl⟩
      · dsimp only
        split <;> exact ⟨rfl, rfl⟩

/-- The parser update either carries both oracle-supplied bounds (range
branch) or explicitly clears both bounds. -/
theorem input_parser_node_bounds (result : FoodIntakeEvent) (today : Nat) :
    ((input_parser_node result today).start_date = some result.start_date ∧
     (input_parser_node result today).end_date = some result.end_date ∧
     result.start_date.isSome ∧ result.end_date.isSome) ∨
    ((input_parser_node result today).start_date = some none ∧
     (input_parser_node result today).end_date = some none) := by
  unfold input_parser_node
  dsimp only
  split
  · rename_i hb
    exact Or.inl ⟨rfl, rfl, hb.1, hb.2⟩
  · split
    · exact Or.inr ⟨rfl, rfl⟩
    · exact Or.inr ⟨rfl, rfl⟩

/-- Merging an update that carries neither range bound preserves the
pair-atomicity of the bounds. -/
theorem update_preserves_pair (s : AgentState) (u : StateUpdate)
    (hs : u.start_date = none) (he : u.end_date = none)
    (ih : s.start_date.isSome ↔ s.end_date.isSome) :
    (applyUpdate s u).start_date.isSome ↔ (applyUpdate s u).end_date.isSome := by
  rw [applyUpdate_start_date, applyUpdate_end_date, hs, he]
  exact ih

/-- The intent-oracle reply of the C3 counterexample turn: a stats query
carrying both range bounds. -/
def c3Event : FoodIntakeEvent :=
  { action := "QUERY_DAILY_STATS", items := [],
    start_date := some 3, end_date := some 4 }

/-- The state right after parsing the C3 range query (today = 9). -/
def c3State : AgentState :=
  applyUpdate initialState (input_parser_node c3Event 9)

/-- C3 counterexample: a reachable state (one parse step with a range
query) in which BOTH date modes are populated at once — the range pair is
set and the single date is also set (defaulted to today by line 63 of
input_node.py) — refuting mutual exclusion as stated. -/
theorem C3_counterexample :
    Reachable c3State ∧
    single_date_mode c3State = true ∧
    range_mode c3State = true :=
  ⟨Reachable.parse Reachable.init c3Event 9, rfl, rfl⟩

/-- C3 amended: what does hold for all reachable states is atomicity of the
range pair — `start_date` and `end_date` are always both set or both unset;
mutual exclusion with the single date field fails because the parser always
populates `current_date` (with today as fallback in range mode), the range
merely taking precedence at lookup time. -/
theorem C3_range_pair_atomic (s : AgentState) (h : Reachable s) :
    s.start_date.isSome ↔ s.end_date.isSome := by
  induction h with
  | init => exact Iff.rfl
  | parse h result today ih =>
      rw [applyUpdate_start_date, applyUpdate_end_date]
      rcases input_parser_node_bounds result today with
        ⟨h1, h2, h3, h4⟩ | ⟨h1, h2⟩
      · rw [h1, h2]
        simp only [Option.getD_some]
        exact ⟨fun _ => h4, fun _ => h3⟩
      · rw [h1, h2]
        exact Iff.rfl
  | search h f ih =>
      exact update_preserves_pair _ _ (food_search_node_dates _ f).1
        (food_search_node_dates _ f).2 ih
  | select h r ih =>
      exact update_preserves_pair _ _ (agent_selection_node_dates _ r).1
        (agent_selection_node_dates _ r).2 ih
  | calc_log h catalog now logs_by_date ih =>
      exact update_preserves_pair _ _
        (calculate_log_node_dates _ catalog now logs_by_date).1
        (calculate_log_node_dates _ catalog now logs_by_date).2 ih
  | stats h rq dq ih => exact update_preserves_pair _ _ rfl rfl ih
  | respond h reply ih => exact update_preserves_pair _ _ rfl rfl ih

/-- C3 witness for the amended theorem, at the concrete reachable range
state. -/
theorem C3_range_pair_atomic_witness :
    c3State.start_date.isSome ↔ c3State.end_date.isSome :=
  C3_range_pair_atomic c3State (Reachable.parse Reachable.init c3Event 9)

/-- Half-to-even rounding is within 1/2 of its argument. -/
theorem abs_roundHalfEven_sub (x : ℚ) :
    |((roundHalfEven x : Int) : ℚ) - x| ≤ 1/2 := by
  unfold roundHalfEven
  simp only [ratFloor_eq_floor]
  split
  · rename_i h
    have hx : x = (⌊x⌋ : ℚ) + 1/2 := by
      have : x - (⌊x⌋ : ℚ) = 1/2 := h
      linarith
    split
    · have heq : (⌊x⌋ : ℚ) - x = -(1/2) := by linarith
      rw [heq]
      norm_num [abs_le]
    · push_cast
      have heq : (⌊x⌋ : ℚ) + 1 - x = 1/2 := by linarith
      rw [heq]
      norm_num [abs_le]
  · rw [← round_eq, abs_sub_comm]
    exact abs_sub_round x

/-- Doubling commutes with two-decimal rounding up to 3/200 = 0.015. -/
theorem pyRound2_double (y : ℚ) :
    |pyRound2 (2 * y) - 2 * pyRound2 y| ≤ 3/200 := by
  have h1 := abs_roundHalfEven_sub (2 * y * 100)
  have h2 := abs_roundHalfEven_sub (y * 100)
  rw [abs_le] at h1 h2
  unfold pyRound2
  rw [abs_le]
  constructor <;> linarith [h1.1, h1.2, h2.1, h2.2]

/-- C7: the macro computation scales linearly — doubling the amount doubles
every macro field up to the two-decimal rounding tolerance (each value is
`round(per_100 * amount/100, 2)`, so the defect is at most 0.015). -/
theorem C7_macro_linear_scaling (catalog : List FoodItem) (food_id : Int)
    (amount : ℚ) (m1 m2 : MacroResult)
    (h1 : calculate_food_macros catalog food_id amount = some m1)
    (h2 : calculate_food_macros catalog food_id (2 * amount) = some m2) :
    |m2.calories - 2 * m1.calories| ≤ 3/200 ∧
    |m2.protein - 2 * m1.protein| ≤ 3/200 ∧
    |m2.carbs - 2 * m1.carbs| ≤ 3/200 ∧
    |m2.fat - 2 * m1.fat| ≤ 3/200 := by
  unfold calculate_food_macros at h1 h2
  cases hf : catalog.find? (fun f => f.id = food_id) with
  | none =>
      rw [hf] at h1
      exact absurd h1 (by simp)
  | some food =>
      rw [hf] at h1 h2
      have hm1 := Option.some.inj h1
      have hm2 := Option.some.inj h2
      subst hm1
      subst hm2
      refine ⟨?_, ?_, ?_, ?_⟩
      · dsimp only
        rw [show food.calories * (2 * amount / 100)
              = 2 * (food.calories * (amount / 100)) by ring]
        exact pyRound2_double _
      · dsimp only
        rw [show food.protein * (2 * amount / 100)
              = 2 * (food.protein * (amount / 100)) by ring]
        exact pyRound2_double _
      · dsimp only
        rw [show food.carbs * (2 * amount / 100)
              = 2 * (food.carbs * (amount / 100)) by ring]
        exact pyRound2_double _
      · dsimp only
        rw [show food.fat * (2 * amount / 100)
              = 2 * (food.fat * (amount / 100)) by ring]
        exact pyRound2_double _

/-- Catalog row for the C7 witness. -/
def c7Food : FoodItem :=
  { id := 1, name := "Chicken Breast", calories := 165, protein := 31,
    carbs := 0, fat := 18/5 }

/-- Macro result for 50 g of the C7 witness food. -/
def c7Half : MacroResult :=
  { name := "Chicken Breast", amount_g := 50, calories := 165/2,
    protein := 31/2, fat := 9/5, carbs := 0 }

/-- Macro result for 100 g of the C7 witness food. -/
def c7Full : MacroResult :=
  { name := "Chicken Breast", amount_g := 100, calories := 165,
    protein := 31, fat := 18/5, carbs := 0 }

/-- C7 witness: 165 kcal / 31 g protein / 3.6 g fat per 100 g, at 50 g and
100 g. -/
theorem C7_macro_linear_scaling_witness :
    |c7Full.calories - 2 * c7Half.calories| ≤ 3/200 ∧
    |c7Full.protein - 2 * c7Half.protein| ≤ 3/200 ∧
    |c7Full.carbs - 2 * c7Half.carbs| ≤ 3/200 ∧
    |c7Full.fat - 2 * c7Half.fat| ≤ 3/200 :=
  C7_macro_linear_scaling [c7Food] 1 50 c7Half c7Full
    (by norm_num [calculate_food_macros, List.find?, pyRound2, roundHalfEven,
          ratFloor_eq_floor, c7Food, c7Half])
    (by norm_num [calculate_food_macros, List.find?, pyRound2, roundHalfEven,
          ratFloor_eq_floor, c7Food, c7Full])
